import Mathlib

/-!
Shallow embedding of the n8n DigitalOcean CI/CD orchestrator
(`ci/main.go`, `ci/ssh/client.go`) and proofs about its behaviour.

Pure helpers of the Go source become Lean functions; the cloud API and
process environment become explicit oracles (functions supplied as
arguments); panics and fallible operations become `Except`.
-/

namespace N8nCI

/-- The process environment, with Go `os.Getenv` semantics: an unset
variable reads as the empty string. -/
def Env : Type := String → String

/-- Deployment configuration, struct `Config` in `ci/main.go`. -/
structure Config where
  doToken : String
  registryURL : String
  dropletName : String
  sshFingerprint : String
  domain : String
  n8nVersion : String
  slackWebhook : String
  alertEmail : String
  encryptionKey : String
  basicAuthUser : String
  basicAuthPass : String
  sshKeyPath : String
deriving DecidableEq, Repr

/-- `requireEnv` from `ci/main.go`: reads the variable and panics (modelled
as `Except.error` carrying the panic message) when it is empty. -/
def requireEnv (env : Env) (key : String) : Except String String :=
  if env key = "" then
    .error ("Environment variable " ++ key ++ " is required")
  else
    .ok (env key)

/-- `requireEnvOrDefault` from `ci/main.go`: empty reads fall back to the
default, never failing. -/
def requireEnvOrDefault (env : Env) (key defaultValue : String) : String :=
  if env key = "" then defaultValue else env key

/-- Default SSH key path computed at the top of `loadConfig`:
`filepath.Join(homeDir, ".ssh", "id_rsa")` with `HOME` falling back to
`defaultGithubHome = "/home/runner"`. -/
def defaultSSHPath (env : Env) : String :=
  (if env "HOME" = "" then "/home/runner" else env "HOME") ++ "/.ssh/id_rsa"

/-- `loadConfig` from `ci/main.go`. The Go struct literal evaluates its
fields in source order, so the first empty required variable (token,
fingerprint, domain, encryption key, in that order) panics. -/
def loadConfig (env : Env) : Except String Config :=
  match requireEnv env "DIGITALOCEAN_ACCESS_TOKEN" with
  | .error m => .error m
  | .ok doToken =>
  match requireEnv env "DO_SSH_KEY_FINGERPRINT" with
  | .error m => .error m
  | .ok sshFingerprint =>
  match requireEnv env "N8N_DOMAIN" with
  | .error m => .error m
  | .ok domain =>
  match requireEnv env "N8N_ENCRYPTION_KEY" with
  | .error m => .error m
  | .ok encryptionKey =>
    .ok {
      doToken := doToken
      registryURL := "registry.digitalocean.com"
      dropletName := requireEnvOrDefault env "DROPLET_NAME" "n8n-production"
      sshFingerprint := sshFingerprint
      domain := domain
      n8nVersion := requireEnvOrDefault env "N8N_VERSION" "latest"
      slackWebhook := env "SLACK_WEBHOOK_URL"
      alertEmail := env "ALERT_EMAIL"
      encryptionKey := encryptionKey
      basicAuthUser := requireEnvOrDefault env "N8N_BASIC_AUTH_USER" "admin"
      basicAuthPass := requireEnvOrDefault env "N8N_BASIC_AUTH_PASS" "n8n-admin"
      sshKeyPath := requireEnvOrDefault env "SSH_KEY_PATH" (defaultSSHPath env)
    }

/-- The required environment variables checked by `loadConfig`, in the
order the Go struct literal evaluates them. -/
def requiredEnvVars : List String :=
  ["DIGITALOCEAN_ACCESS_TOKEN", "DO_SSH_KEY_FINGERPRINT",
   "N8N_DOMAIN", "N8N_ENCRYPTION_KEY"]

/-- Events of `main` in `ci/main.go`, truncated at the first cloud API
call. `main` runs `loadConfig` before constructing the godo client; a
panic in `loadConfig` aborts the process, and the first cloud API call on
the success path is `Keys.List` inside `ensureSSHKey`
(`setupInfrastructure`). -/
inductive MainEvent where
  | configPanic (msg : String)
  | configLoaded
  | cloudCall (op : String)
deriving DecidableEq, Repr

/-- Abstraction of `main`'s control flow up to the first cloud API call:
configuration loading happens first and its panic aborts the run. -/
def mainTrace (env : Env) : List MainEvent :=
  match loadConfig env with
  | .error m => [.configPanic m]
  | .ok _ => [.configLoaded, .cloudCall "Keys.List"]

/-- Character class `[a-zA-Z0-9._-]` of the regexp in
`sanitizeRecordName` (`ci/main.go`); `Char.isAlpha`/`Char.isDigit` are
exactly the ASCII ranges of the class. -/
def isDNSNameChar (c : Char) : Bool :=
  c.isAlpha || c.isDigit || c == '.' || c == '_' || c == '-'

/-- `sanitizeRecordName` from `ci/main.go`: `""` and `"@"` map to `"@"`;
otherwise `regexp.ReplaceAllString` with the single-character pattern
`[^a-zA-Z0-9._-]` replaces each character outside the class with `-`,
i.e. a per-character substitution. -/
def sanitizeRecordName (name : String) : String :=
  if name = "" ∨ name = "@" then "@"
  else String.mk (name.data.map (fun c => if isDNSNameChar c then c else '-'))

/-- `minDomainParts` constant from `ci/main.go`. -/
def minDomainParts : Nat := 2

/-- `strings.Split(domain, ".")` as used by `getDomainParts` and
`configureAndVerifyDNS`: for the single-character separator this splits
the character sequence at every `.` (`strings.Split("", ".")` is
`[""]`, matching `List.splitOn` on the empty list). -/
def splitDot (s : String) : List String :=
  (s.data.splitOn '.').map String.mk

/-- `getDomainParts` from `ci/main.go`: splits on `.`; the root domain is
the whole input unless there are more than `minDomainParts` labels, in
which case it is the last two labels joined with `.`
(`strings.Join(parts[len(parts)-minDomainParts:], ".")`). -/
def getDomainParts (domain : String) : String × List String :=
  let parts := splitDot domain
  let rootDomain :=
    if parts.length > minDomainParts then
      String.intercalate "." (parts.drop (parts.length - minDomainParts))
    else domain
  (rootDomain, parts)

/-- A-record selection in `configureAndVerifyDNS` (`ci/main.go`): record
name `"@"` and root `config.domain` unless the domain has more than
`minDomainParts` labels, in which case the record name is the sanitized
first label `parts[0]` and the root is the last two labels joined with
`.`. Returns (record name, root domain). -/
def dnsRecordSelection (domain : String) : String × String :=
  let parts := splitDot domain
  if parts.length > minDomainParts then
    (sanitizeRecordName (parts.headD ""),
     String.intercalate "." (parts.drop (parts.length - minDomainParts)))
  else ("@", domain)

/-- An inbound firewall rule (godo `InboundRule` as populated by
`createFirewall` in `ci/main.go`). -/
structure InboundRule where
  protocol : String
  portRange : String
  sources : List String
deriving DecidableEq, Repr

/-- An outbound firewall rule (godo `OutboundRule` as populated by
`createFirewall` in `ci/main.go`). -/
structure OutboundRule where
  protocol : String
  portRange : String
  destinations : List String
deriving DecidableEq, Repr

/-- A cloud firewall as held in the account inventory returned by
`Firewalls.List`. -/
structure Firewall where
  id : Nat
  name : String
  inboundRules : List InboundRule
  outboundRules : List OutboundRule
deriving DecidableEq, Repr

/-- The source/destination list `[]string{"0.0.0.0/0"}` used by every
rule in `createFirewall`. -/
def anywhere : List String := ["0.0.0.0/0"]

/-- The fixed inbound rules of the `FirewallRequest` built in
`createFirewall` (`ci/main.go`): tcp 22, 80, 443 from anywhere. -/
def firewallInboundRules : List InboundRule :=
  [⟨"tcp", "22", anywhere⟩, ⟨"tcp", "80", anywhere⟩, ⟨"tcp", "443", anywhere⟩]

/-- The fixed outbound rules of the `FirewallRequest` built in
`createFirewall`: tcp ports 1-65535 to anywhere. -/
def firewallOutboundRules : List OutboundRule :=
  [⟨"tcp", "1-65535", anywhere⟩]

/-- Firewall name derived from the droplet name in `createFirewall`:
`fmt.Sprintf("%s-firewall", config.dropletName)`. -/
def firewallName (dropletName : String) : String := dropletName ++ "-firewall"

/-- State transition of `createFirewall` (`ci/main.go`) on the account's
firewall inventory, assuming the API calls succeed: the loop walks the
listed firewalls and, at the first one whose name matches, issues
`Firewalls.Update` with the fixed rule request (a PUT that replaces the
firewall's name and rule set) and returns; if no name matches, it issues
`Firewalls.Create` with the same request, which appends a new firewall
with a fresh id. -/
def createFirewall (fwName : String) (freshId : Nat) : List Firewall → List Firewall
  | [] => [⟨freshId, fwName, firewallInboundRules, firewallOutboundRules⟩]
  | fw :: rest =>
    if fw.name = fwName then
      { fw with
          name := fwName
          inboundRules := firewallInboundRules
          outboundRules := firewallOutboundRules } :: rest
    else fw :: createFirewall fwName freshId rest

/-- Result of one cloud API call: `ok` carries the decoded value, `err`
carries the HTTP status of the response when one exists (`none` models a
nil `*godo.Response`). -/
inductive ApiResult (α : Type) where
  | ok (value : α)
  | err (status : Option Nat)
deriving DecidableEq, Repr

/-- A container registry as returned by `Registry.Get`/`Registry.Create`
(only the name is consulted by `ci/main.go`). -/
structure Registry where
  name : String
deriving DecidableEq, Repr

/-- Errors returned by `createRegistry` (`ci/main.go`): wrapped
check/create failures, `ErrRegistryEmpty`, and `ErrRegistryNotReady`. -/
inductive RegistryError where
  | checkFailed
  | createFailed
  | registryEmpty
  | notReady
deriving DecidableEq, Repr

/-- `maxRetries` constant from `ci/main.go`. -/
def maxRetries : Nat := 3

/-- Oracle for the cloud calls `createRegistry` makes: the initial
`Registry.Get`, the `Registry.Create`, and the `Registry.Get` of each
readiness retry (indexed by retry number). -/
structure RegistryApi where
  get0 : ApiResult (Option Registry)
  create : ApiResult (Option Registry)
  retryGet : Nat → ApiResult (Option Registry)

/-- The readiness test of the retry loop in `createRegistry`:
`err == nil && registry != nil && registry.Name != ""`. -/
def registryReady : ApiResult (Option Registry) → Bool
  | .ok (some r) => r.name != ""
  | _ => false

/-- The bounded readiness loop of `createRegistry`: up to `fuel` calls of
`Registry.Get` (retry index `i` counting up), returning `nil` at the
first ready response and `ErrRegistryNotReady` when the budget is
exhausted (the fixed `registryRetryDelay` sleep between attempts is not
observable in the state model). -/
def registryRetryLoop (api : RegistryApi) : Nat → Nat → Except RegistryError Unit
  | _, 0 => .error .notReady
  | i, fuel + 1 =>
    if registryReady (api.retryGet i) then .ok ()
    else registryRetryLoop api (i + 1) fuel

/-- The tail of `createRegistry` after a registry value has been obtained
(from the initial get or from creation): the `ErrRegistryEmpty` guard on
a nil registry or empty name, then the readiness retry loop. -/
def registryNameCheck (api : RegistryApi) : Option Registry → Except RegistryError Unit
  | none => .error .registryEmpty
  | some reg =>
    if reg.name = "" then .error .registryEmpty
    else registryRetryLoop api 0 maxRetries

/-- `createRegistry` from `ci/main.go`. Returns the result paired with
whether `Registry.Create` was called. The existence check fails fatally
(`failed to check registry`) unless the response is non-nil with status
404, in which case creation is attempted. -/
def createRegistry (api : RegistryApi) : Except RegistryError Unit × Bool :=
  match api.get0 with
  | .ok r => (registryNameCheck api r, false)
  | .err status =>
    if status = some 404 then
      match api.create with
      | .ok r => (registryNameCheck api r, true)
      | .err _ => (.error .createFailed, true)
    else (.error .checkFailed, false)

/-- `baseRef` in `buildAndPushImage` (`ci/main.go`):
`fmt.Sprintf("%s/%s", config.registryURL, registry.Name)`. -/
def baseRef (c : Config) (registryName : String) : String :=
  c.registryURL ++ "/" ++ registryName

/-- `latestRef` in `buildAndPushImage`:
`fmt.Sprintf("%s/n8n:latest", baseRef)`. -/
def latestRef (c : Config) (registryName : String) : String :=
  baseRef c registryName ++ "/n8n:latest"

/-- `versionedRef` in `buildAndPushImage`:
`fmt.Sprintf("%s/n8n:%s", baseRef, config.n8nVersion)`. -/
def versionedRef (c : Config) (registryName : String) : String :=
  baseRef c registryName ++ "/n8n:" ++ c.n8nVersion

/-- Failure cases of `buildAndPushImage` (`ci/main.go`), each a wrapped
error with the failing step's identity. -/
inductive BuildError where
  | ensureRegistry
  | credentials
  | emptyCredentials
  | registryInfo
  | registryEmpty
  | publishLatest
  | publishVersioned
deriving DecidableEq, Repr

/-- Oracle for the external calls of `buildAndPushImage`: the
`createRegistry` outcome, the `Registry.DockerCredentials` call (carrying
`DockerConfigJSON`, where the empty string models nil/empty credentials),
the `Registry.Get` info call, and whether publishing a given image
reference succeeds. -/
structure BuildApi where
  ensureRegistry : Except RegistryError Unit
  dockerCredentials : ApiResult String
  registryInfo : ApiResult (Option Registry)
  publishOk : String → Bool

/-- `buildAndPushImage` from `ci/main.go`, with the image construction
elided (it does not affect control flow): ensure the registry, mint
credentials, get the registry name, publish `latestRef`, and only on its
success publish `versionedRef`. Returns the result paired with the list
of image references for which a publish was attempted, in order. -/
def buildAndPushImage (c : Config) (api : BuildApi) :
    Except BuildError Unit × List String :=
  match api.ensureRegistry with
  | .error _ => (.error .ensureRegistry, [])
  | .ok _ =>
    match api.dockerCredentials with
    | .err _ => (.error .credentials, [])
    | .ok json =>
      if json = "" then (.error .emptyCredentials, [])
      else
        match api.registryInfo with
        | .err _ => (.error .registryInfo, [])
        | .ok none => (.error .registryEmpty, [])
        | .ok (some reg) =>
          if reg.name = "" then (.error .registryEmpty, [])
          else if api.publishOk (latestRef c reg.name) = false then
            (.error .publishLatest, [latestRef c reg.name])
          else if api.publishOk (versionedRef c reg.name) = false then
            (.error .publishVersioned,
             [latestRef c reg.name, versionedRef c reg.name])
          else
            (.ok (), [latestRef c reg.name, versionedRef c reg.name])

/-- Failure kinds of `ExecuteCommand` (`ci/ssh/client.go`): dial failure,
session creation failure, and non-zero remote exit. -/
inductive SSHError where
  | dialFailed
  | sessionFailed
  | execFailed
deriving DecidableEq, Repr

/-- Oracle for one `ExecuteCommand` call: whether `ssh.Dial` and
`NewSession` succeed, and the `CombinedOutput` result of the remote run
(the captured merged stdout/stderr plus whether the command exited
zero). -/
structure SSHRun where
  dialOk : Bool
  sessionOk : Bool
  combinedOutput : String
  exitOk : Bool
deriving DecidableEq, Repr

/-- `ExecuteCommand` from `ci/ssh/client.go`: dial and session failures
return before any output exists; `session.CombinedOutput` returns the
captured output, which is returned alongside the wrapped error when the
command fails. -/
def executeCommand (r : SSHRun) : String × Option SSHError :=
  if r.dialOk = false then ("", some .dialFailed)
  else if r.sessionOk = false then ("", some .sessionFailed)
  else if r.exitOk = false then (r.combinedOutput, some .execFailed)
  else (r.combinedOutput, none)

/-- The three channels of the `select` in `waitForDNSPropagation`
(`ci/main.go`): caller cancellation (`ctx.Done()`), the overall
`dnsTimeout` firing, and the `dnsCheckInterval` ticker firing. -/
inductive SelectEvent where
  | ctxDone
  | timeoutFired
  | tick
deriving DecidableEq, Repr

/-- Errors `waitForDNSPropagation` can return: the caller's cancellation
error (`ctx.Err()`) or `ErrDNSPropagation`. -/
inductive DNSWaitError where
  | ctxCanceled
  | dnsPropagation
deriving DecidableEq, Repr

/-- `waitForDNSPropagation` from `ci/main.go`. Every branch of the
`select` inside the `for` loop returns, so the body runs exactly once and
only the first channel to fire matters: cancellation returns `ctx.Err()`,
the overall timeout returns `ErrDNSPropagation`, and the ticker branch
sleeps `dnsHealthCheckDelay` once and returns `nil` without doing any DNS
lookup (the lookup is a TODO in the source). The second component counts
DNS lookups performed. -/
def waitForDNSPropagation (firstEvent : SelectEvent) :
    Except DNSWaitError Unit × Nat :=
  match firstEvent with
  | .ctxDone => (.error .ctxCanceled, 0)
  | .timeoutFired => (.error .dnsPropagation, 0)
  | .tick => (.ok (), 0)

/-- `cpuLimit` constant from `ci/main.go`. -/
def cpuLimit : String := "2"

/-- `memoryLimit` constant from `ci/main.go`. -/
def memoryLimit : String := "2G"

/-- `cpuReservation` constant from `ci/main.go`. -/
def cpuReservation : String := "1"

/-- `memoryReservation` constant from `ci/main.go`. -/
def memoryReservation : String := "1G"

/-- `generatePostgresCheck` from `ci/main.go` (raw-string literal). -/
def generatePostgresCheck : String :=
  "\n# Check if PostgreSQL container exists and is running\nif docker ps -a --format \x27\x7b\x7b.Names\x7d\x7d\x27 | grep -q \"^n8n-db-1$\"; then\n\techo \"PostgreSQL container already exists, skipping creation...\"\n\tPOSTGRES_EXISTS=true\nelse\n\tPOSTGRES_EXISTS=false\nfi"

/-- `generateN8NServiceConfig` from `ci/main.go`: the n8n service block of
the compose file, with `fmt.Sprintf` substituting `config.registryURL`
and the resource-limit constants (the source template ends in a stray
apostrophe after the last `%s`, kept verbatim). -/
def generateN8NServiceConfig (c : Config) : String :=
  "\n    image: " ++ c.registryURL ++
  "/n8n-app:latest\n    restart: unless-stopped\n    ports:\n      - \"127.0.0.1:5678:5678\"\n    environment:\n      - N8N_HOST=$\x7bN8N_HOST\x7d\n      - N8N_PORT=5678\n      - N8N_PROTOCOL=https\n      - NODE_ENV=production\n      - N8N_ENCRYPTION_KEY=$\x7bN8N_ENCRYPTION_KEY\x7d\n      - DB_TYPE=postgresdb\n      - DB_POSTGRESDB_HOST=db\n      - DB_POSTGRESDB_DATABASE=n8n\n      - DB_POSTGRESDB_USER=n8n\n      - DB_POSTGRESDB_PASSWORD=$\x7bDB_PASSWORD\x7d\n      - N8N_EMAIL_MODE=$\x7bN8N_EMAIL_MODE\x7d\n      - N8N_SMTP_HOST=$\x7bN8N_SMTP_HOST\x7d\n      - N8N_SMTP_PORT=$\x7bN8N_SMTP_PORT\x7d\n      - N8N_SMTP_USER=$\x7bN8N_SMTP_USER\x7d\n      - N8N_SMTP_PASS=$\x7bN8N_SMTP_PASS\x7d\n      - N8N_SMTP_SENDER=$\x7bN8N_SMTP_SENDER\x7d\n      - WEBHOOK_URL=$\x7bWEBHOOK_URL\x7d\n      - N8N_BASIC_AUTH_ACTIVE=true\n      - N8N_BASIC_AUTH_USER=$\x7bN8N_BASIC_AUTH_USER\x7d\n      - N8N_BASIC_AUTH_PASSWORD=$\x7bN8N_BASIC_AUTH_PASSWORD\x7d\n      - N8N_HIRING_BANNER_ENABLED=false\n      - N8N_DIAGNOSTICS_ENABLED=false\n      - N8N_METRICS=true\n    volumes:\n      - n8n_data:/home/node/.n8n\n      - /opt/n8n/local_files:/files\n    depends_on:\n      - db\n    networks:\n      - n8n_network\n    healthcheck:\n      test: [\"CMD\", \"curl\", \"-f\", \"http://localhost:5678/healthz\"]\n      interval: 30s\n      timeout: 10s\n      retries: 3\n      start_period: 30s\n    deploy:\n      resources:\n        limits:\n          cpus: \x27" ++
  cpuLimit ++ "\x27\n          memory: " ++ memoryLimit ++
  "\n        reservations:\n          cpus: \x27" ++ cpuReservation ++
  "\x27\n          memory: " ++ memoryReservation ++ "\x27"

/-- `generateDBServiceConfig` from `ci/main.go` (raw-string literal). -/
def generateDBServiceConfig : String :=
  "\n    image: postgres:13\n    restart: unless-stopped\n    environment:\n      - POSTGRES_DB=n8n\n      - POSTGRES_USER=n8n\n      - POSTGRES_PASSWORD=$\x7bDB_PASSWORD\x7d\n    volumes:\n      - db_data:/var/lib/postgresql/data\n    networks:\n      - n8n_network\n    healthcheck:\n      test: [\"CMD-SHELL\", \"pg_isready -U n8n\"]\n      interval: 10s\n      timeout: 5s\n      retries: 5\n    profiles:\n      - new-install"

/-- `generateCaddyServiceConfig` from `ci/main.go` (raw-string literal). -/
def generateCaddyServiceConfig : String :=
  "\n    image: caddy:2\n    restart: unless-stopped\n    ports:\n      - \"80:80\"\n      - \"443:443\"\n    volumes:\n      - /opt/n8n/caddy_config/Caddyfile:/etc/caddy/Caddyfile:ro\n      - caddy_data:/data\n      - caddy_config:/config\n    networks:\n      - n8n_network\n    depends_on:\n      - n8n"

/-- `generateServicesConfig` from `ci/main.go`: the compose skeleton with
the three service blocks substituted via `fmt.Sprintf`. -/
def generateServicesConfig (c : Config) : String :=
  "version: \x273.8\x27\n\nservices:\n  n8n:" ++ generateN8NServiceConfig c ++
  "\n  db:" ++ generateDBServiceConfig ++
  "\n  caddy:" ++ generateCaddyServiceConfig ++
  "\n\nvolumes:\n  n8n_data:\n  db_data:\n  caddy_data:\n  caddy_config:\n\nnetworks:\n  n8n_network:\n    driver: bridge"

/-- `generateDockerComposeContent` from `ci/main.go`. -/
def generateDockerComposeContent (c : Config) : String :=
  generatePostgresCheck ++ "\n" ++ generateServicesConfig c

/-- `generateDockerCompose` from `ci/main.go`: the heredoc that writes
the compose file. -/
def generateDockerCompose (c : Config) : String :=
  "#!/bin/bash\nset -e\n\n# Create docker-compose.yml\ncat > /opt/n8n/docker-compose.yml << \x27EOF\x27\n" ++
  generateDockerComposeContent c ++ "\nEOF"

/-- `generateEnvFile` from `ci/main.go`. Unlike the other generators it
reads the process environment: `emailMode := os.Getenv("N8N_EMAIL_MODE")`
with an empty read defaulting to `"false"`; the rendered heredoc
interpolates config fields and that value (the `$(openssl rand -hex 24)`
database password is literal text evaluated later on the remote host). -/
def generateEnvFile (c : Config) (env : Env) : String :=
  let emailMode :=
    if env "N8N_EMAIL_MODE" = "" then "false" else env "N8N_EMAIL_MODE"
  "\n# Create .env file for docker-compose\ncat > /opt/n8n/.env << EOF\nN8N_HOST=" ++
  c.domain ++ "\nN8N_ENCRYPTION_KEY=" ++ c.encryptionKey ++
  "\nDB_PASSWORD=$(openssl rand -hex 24)\nN8N_BASIC_AUTH_USER=" ++
  c.basicAuthUser ++ "\nN8N_BASIC_AUTH_PASSWORD=" ++ c.basicAuthPass ++
  "\nN8N_EMAIL_MODE=" ++ emailMode ++ "\nEOF"

/-- `generateSetupCommands` from `ci/main.go`: registry login and service
startup shell sequence, interpolating `config.doToken` twice. -/
def generateSetupCommands (c : Config) : String :=
  "\n# Set proper permissions\nchown -R n8n:n8n /opt/n8n\nchmod 600 /opt/n8n/.env\n\n# Login to registry\ndocker login registry.digitalocean.com -u " ++
  c.doToken ++ " -p " ++ c.doToken ++
  "\n\n# Pull and start services\ncd /opt/n8n\n\n# Start services based on PostgreSQL existence\nif [ \"$POSTGRES_EXISTS\" = true ]; then\n\tdocker-compose pull n8n caddy\n\tdocker-compose up -d n8n caddy\nelse\n\tdocker-compose pull\n\tdocker-compose --profile new-install up -d\nfi\n\n# Wait for services to be healthy\necho \"Waiting for services to be ready...\"\ntimeout 300 bash -c \x27until docker-compose ps | grep -q \"(healthy)\"; do sleep 5; done\x27"

/-- `generateDeploymentScript` from `ci/main.go`:
`fmt.Sprintf("%s\n%s\n%s", compose, envFile, setup)`. The process
environment is threaded to `generateEnvFile`, which reads it. -/
def generateDeploymentScript (c : Config) (env : Env) : String :=
  generateDockerCompose c ++ "\n" ++ generateEnvFile c env ++ "\n" ++
  generateSetupCommands c

deriving instance DecidableEq for Except

/-- A sample configuration used to exercise the executable model on
concrete inputs. -/
def sampleConfig : Config :=
  { doToken := "token"
    registryURL := "registry.digitalocean.com"
    dropletName := "n8n-production"
    sshFingerprint := "fp"
    domain := "n8n.example.com"
    n8nVersion := "1.74.0"
    slackWebhook := ""
    alertEmail := ""
    encryptionKey := "enc"
    basicAuthUser := "admin"
    basicAuthPass := "n8n-admin"
    sshKeyPath := "/home/runner/.ssh/id_rsa" }

/-- A prior firewall inventory holding two firewalls that both already
bear the reconciler's target name. -/
def dupFirewallState : List Firewall :=
  [⟨0, "n8n-production-firewall", firewallInboundRules, firewallOutboundRules⟩,
   ⟨1, "n8n-production-firewall", firewallInboundRules, firewallOutboundRules⟩]

/-- A registry API trace: the existence check 404s, creation succeeds,
and the registry never becomes queryable afterwards. -/
def registryApi0 : RegistryApi :=
  { get0 := .err (some 404)
    create := .ok (some ⟨"n8n"⟩)
    retryGet := fun _ => .err none }

/-- A build API trace in which every step succeeds except that only the
`latest` reference can be published. -/
def buildApi0 : BuildApi :=
  { ensureRegistry := .ok ()
    dockerCredentials := .ok "dockerconfigjson"
    registryInfo := .ok (some ⟨"n8n"⟩)
    publishOk := fun ref => ref == latestRef sampleConfig "n8n" }

/-- An environment in which only `N8N_VERSION` is unset. -/
def envVersionUnset : Env :=
  fun k => if k = "N8N_VERSION" then "" else "x"

/-- The configuration `loadConfig` produces from `envVersionUnset`. -/
def configVersionUnset : Config :=
  { doToken := "x"
    registryURL := "registry.digitalocean.com"
    dropletName := "x"
    sshFingerprint := "x"
    domain := "x"
    n8nVersion := "latest"
    slackWebhook := "x"
    alertEmail := "x"
    encryptionKey := "x"
    basicAuthUser := "x"
    basicAuthPass := "x"
    sshKeyPath := "x" }

/-! ## Theorems -/

/-- Claim C2, counterexample: the claim's example is wrong on the code.
`_` belongs to the allowed class `[a-zA-Z0-9._-]`, so
`sanitizeRecordName "my_app!"` only replaces the `!`, giving
`"my_app-"`, not the claimed `"my-app-"`. -/
theorem sanitizeRecordName_example_cex :
    sanitizeRecordName "my_app!" = "my_app-" ∧
    sanitizeRecordName "my_app!" ≠ "my-app-" := by
  decide

/-- Claim C2 (amended): `sanitizeRecordName` returns `"@"` when the input
is `""` or `"@"`, and otherwise replaces, character by character, every
character outside `[A-Za-z0-9._-]` with `-` (so `"my_app!"` yields
`"my_app-"`). -/
theorem sanitizeRecordName_spec (s : String) :
    (s = "" ∨ s = "@" → sanitizeRecordName s = "@") ∧
    (¬(s = "" ∨ s = "@") → ∀ i : Nat,
      (sanitizeRecordName s).data[i]? =
        (s.data[i]?).map (fun c => if isDNSNameChar c then c else '-')) := by
  constructor
  · intro h
    simp [sanitizeRecordName, h]
  · intro h i
    simp only [sanitizeRecordName, if_neg h]
    exact List.getElem?_map _ _ _

/-- Witness for `sanitizeRecordName_spec` at `""`, `"@"` and
`"my_app!"` (position 6 is the `!`, replaced by `-`). -/
theorem sanitizeRecordName_spec_witness :
    sanitizeRecordName "" = "@" ∧ sanitizeRecordName "@" = "@" ∧
    (sanitizeRecordName "my_app!").data[6]? = some '-' := by
  refine ⟨(sanitizeRecordName_spec "").1 (Or.inl rfl),
          (sanitizeRecordName_spec "@").1 (Or.inr rfl), ?_⟩
  rw [(sanitizeRecordName_spec "my_app!").2 (by decide) 6]
  decide

/-- Claim C9: the A-record selection of `configureAndVerifyDNS` computes
the same root domain as `getDomainParts`; with more than two dot-separated
labels the record name is the sanitized leftmost label and the root is
the last two labels joined with a dot, and with two or fewer labels the
record name is `"@"` and the root is the input unchanged. -/
theorem dnsRecordSelection_spec (domain : String) :
    (dnsRecordSelection domain).2 = (getDomainParts domain).1 ∧
    ((splitDot domain).length > 2 →
      dnsRecordSelection domain =
        (sanitizeRecordName ((splitDot domain).headD ""),
         String.intercalate "."
           ((splitDot domain).drop ((splitDot domain).length - 2)))) ∧
    ((splitDot domain).length ≤ 2 →
      dnsRecordSelection domain = ("@", domain)) := by
  unfold dnsRecordSelection getDomainParts minDomainParts
  by_cases h : (splitDot domain).length > 2
  · simp [h]
  · simp [h, Nat.not_lt.mp (by simpa using h)]

/-- Witness for `dnsRecordSelection_spec` at the spec's two examples:
`"n8n.example.com"` and `"example.com"`. -/
theorem dnsRecordSelection_spec_witness :
    dnsRecordSelection "n8n.example.com" = ("n8n", "example.com") ∧
    dnsRecordSelection "example.com" = ("@", "example.com") := by
  refine ⟨?_, (dnsRecordSelection_spec "example.com").2.2 (by decide)⟩
  rw [(dnsRecordSelection_spec "n8n.example.com").2.1 (by decide)]
  decide

/-- Claim C6: `waitForDNSPropagation` returns exactly one of three
outcomes — success after the single ticker wait, the caller's
cancellation error, or `ErrDNSPropagation` on overall timeout — decided
by whichever channel fires first, and the success path performs no DNS
lookup. -/
theorem waitForDNSPropagation_spec (e : SelectEvent) :
    (waitForDNSPropagation e = (.ok (), 0) ∨
     waitForDNSPropagation e = (.error .ctxCanceled, 0) ∨
     waitForDNSPropagation e = (.error .dnsPropagation, 0)) ∧
    (e = .tick → waitForDNSPropagation e = (.ok (), 0)) ∧
    (e = .ctxDone → waitForDNSPropagation e = (.error .ctxCanceled, 0)) ∧
    (e = .timeoutFired →
      waitForDNSPropagation e = (.error .dnsPropagation, 0)) ∧
    (waitForDNSPropagation e).2 = 0 := by
  cases e <;> simp [waitForDNSPropagation]

/-- Witness for `waitForDNSPropagation_spec`: the ticker firing first
yields success with zero DNS lookups. -/
theorem waitForDNSPropagation_spec_witness :
    waitForDNSPropagation .tick = (.ok (), 0) :=
  (waitForDNSPropagation_spec .tick).2.1 rfl

/-- Claim C8: `ExecuteCommand` returns the captured combined output
together with a non-nil error whenever the remote command exits non-zero;
output is only empty-by-construction for dial and session failures, which
return before any output exists, and the captured output is returned
whenever a session ran the command. -/
theorem executeCommand_spec (r : SSHRun) :
    (r.dialOk = false → executeCommand r = ("", some .dialFailed)) ∧
    (r.dialOk = true → r.sessionOk = false →
      executeCommand r = ("", some .sessionFailed)) ∧
    (r.dialOk = true → r.sessionOk = true → r.exitOk = false →
      executeCommand r = (r.combinedOutput, some .execFailed)) ∧
    (r.dialOk = true → r.sessionOk = true →
      (executeCommand r).1 = r.combinedOutput) := by
  rcases r with ⟨d, s, out, e⟩
  cases d <;> cases s <;> cases e <;> simp [executeCommand]

/-- Witness for `executeCommand_spec`: a run whose command fails returns
its output `"boom"` alongside the execution error. -/
theorem executeCommand_spec_witness :
    executeCommand ⟨true, true, "boom", false⟩ = ("boom", some .execFailed) :=
  (executeCommand_spec ⟨true, true, "boom", false⟩).2.2.1 rfl rfl rfl

/-- Helper for claim C1, generalized over the firewall name: under a
prior inventory holding at most one firewall of the target name,
`createFirewall` leaves exactly one firewall of that name, every firewall
of that name carries exactly the fixed rule set, a found firewall is
updated in place (inventory size unchanged), and an absent one is
created by appending. -/
theorem createFirewall_count (fwName : String) (freshId : Nat) :
    ∀ st : List Firewall,
      st.countP (fun fw => fw.name == fwName) ≤ 1 →
      ((createFirewall fwName freshId st).countP
          (fun fw => fw.name == fwName) = 1 ∧
       (∀ fw ∈ createFirewall fwName freshId st, fw.name = fwName →
          fw.inboundRules = firewallInboundRules ∧
          fw.outboundRules = firewallOutboundRules) ∧
       (st.countP (fun fw => fw.name == fwName) = 1 →
          (createFirewall fwName freshId st).length = st.length) ∧
       (st.countP (fun fw => fw.name == fwName) = 0 →
          createFirewall fwName freshId st =
            st ++ [⟨freshId, fwName, firewallInboundRules,
                    firewallOutboundRules⟩])) := by
  intro st
  induction st with
  | nil =>
    intro _
    refine ⟨by simp [createFirewall], ?_, by simp [createFirewall], by
      simp [createFirewall]⟩
    intro fw hfw _
    simp [createFirewall] at hfw
    simp [hfw]
  | cons fw rest ih =>
    intro h
    by_cases hname : fw.name = fwName
    · have hrest : ∀ g ∈ rest, ¬(g.name = fwName) := by
        simp [List.countP_cons, hname] at h
        exact h
      have hcnt : rest.countP (fun g => g.name == fwName) = 0 :=
        List.countP_eq_zero.mpr (by intro g hg; simpa using hrest g hg)
      refine ⟨?_, ?_, ?_, ?_⟩
      · simp [createFirewall, hname, List.countP_cons, hcnt]
      · intro g hg hgname
        simp only [createFirewall, if_pos hname] at hg
        rcases List.mem_cons.mp hg with hg | hg
        · subst hg
          exact ⟨rfl, rfl⟩
        · exact absurd hgname (hrest g hg)
      · intro _
        simp [createFirewall, hname]
      · intro h0
        simp [List.countP_cons, hname] at h0
    · have h' : rest.countP (fun g => g.name == fwName) ≤ 1 := by
        rw [List.countP_cons] at h
        simpa [hname] using h
      obtain ⟨ih1, ih2, ih3, ih4⟩ := ih h'
      refine ⟨?_, ?_, ?_, ?_⟩
      · simp [createFirewall, hname, List.countP_cons, ih1]
      · intro g hg hgname
        simp only [createFirewall, if_neg hname] at hg
        rcases List.mem_cons.mp hg with hg | hg
        · subst hg
          exact absurd hgname hname
        · exact ih2 g hg hgname
      · intro h1
        have h1' : rest.countP (fun g => g.name == fwName) = 1 := by
          rw [List.countP_cons] at h1
          simpa [hname] using h1
        simp [createFirewall, hname, ih3 h1']
      · intro h0
        have h0' : rest.countP (fun g => g.name == fwName) = 0 := by
          rw [List.countP_cons] at h0
          simpa [hname] using h0
        simp [createFirewall, hname, ih4 h0']

/-- Claim C1, counterexample: the quantification over every prior
firewall state fails. With two firewalls already named
`n8n-production-firewall` (both even carrying the fixed rule set),
`createFirewall` updates only the first match and leaves two firewalls of
that name, so the state after reconciliation does not contain exactly one
firewall of the target name. -/
theorem createFirewall_duplicate_cex :
    (createFirewall (firewallName "n8n-production") 2 dupFirewallState).countP
        (fun fw => fw.name == firewallName "n8n-production") = 2 ∧
    (createFirewall (firewallName "n8n-production") 2 dupFirewallState).countP
        (fun fw => fw.name == firewallName "n8n-production" &&
          fw.inboundRules == firewallInboundRules &&
          fw.outboundRules == firewallOutboundRules) = 2 := by
  decide

/-- Claim C1 (amended): provided the prior state holds at most one
firewall named `N-firewall`, running `createFirewall` for droplet name
`N` leaves exactly one firewall of that name, whose rule set is exactly
the fixed allow-list (tcp 22/80/443 inbound from anywhere; tcp 1-65535
outbound to anywhere); an existing firewall is updated in place (the
inventory size is unchanged) and otherwise one is created. -/
theorem createFirewall_reconciliation (name : String) (freshId : Nat)
    (st : List Firewall)
    (h : st.countP (fun fw => fw.name == firewallName name) ≤ 1) :
    ((createFirewall (firewallName name) freshId st).countP
        (fun fw => fw.name == firewallName name) = 1 ∧
     (∀ fw ∈ createFirewall (firewallName name) freshId st,
        fw.name = firewallName name →
        fw.inboundRules = firewallInboundRules ∧
        fw.outboundRules = firewallOutboundRules) ∧
     (st.countP (fun fw => fw.name == firewallName name) = 1 →
        (createFirewall (firewallName name) freshId st).length = st.length) ∧
     (st.countP (fun fw => fw.name == firewallName name) = 0 →
        createFirewall (firewallName name) freshId st =
          st ++ [⟨freshId, firewallName name, firewallInboundRules,
                  firewallOutboundRules⟩])) :=
  createFirewall_count (firewallName name) freshId st h

/-- Witness for `createFirewall_reconciliation`: on an empty inventory
the reconciler creates the single fixed-rule firewall. -/
theorem createFirewall_reconciliation_witness :
    (createFirewall (firewallName "n8n-production") 0 []).countP
        (fun fw => fw.name == firewallName "n8n-production") = 1 ∧
    createFirewall (firewallName "n8n-production") 0 [] =
      [⟨0, firewallName "n8n-production", firewallInboundRules,
        firewallOutboundRules⟩] :=
  ⟨(createFirewall_reconciliation "n8n-production" 0 [] (by decide)).1,
   (createFirewall_reconciliation "n8n-production" 0 []
      (by decide)).2.2.2 (by decide)⟩

/-- Helper: the readiness retry loop of `createRegistry` only ever
returns success or `ErrRegistryNotReady`. -/
theorem registryRetryLoop_cases (api : RegistryApi) :
    ∀ fuel i, registryRetryLoop api i fuel = .ok () ∨
      registryRetryLoop api i fuel = .error .notReady := by
  intro fuel
  induction fuel with
  | zero => intro i; exact Or.inr rfl
  | succ fuel ih =>
    intro i
    by_cases hr : registryReady (api.retryGet i) = true
    · exact Or.inl (by simp [registryRetryLoop, hr])
    · simpa [registryRetryLoop, hr] using ih (i + 1)

/-- Helper: the readiness retry loop succeeds exactly when one of the
`fuel` consecutive readiness probes starting at `i` reports ready. -/
theorem registryRetryLoop_ok_iff (api : RegistryApi) :
    ∀ fuel i, registryRetryLoop api i fuel = .ok () ↔
      ∃ j, j < fuel ∧ registryReady (api.retryGet (i + j)) = true := by
  intro fuel
  induction fuel with
  | zero =>
    intro i
    simp [registryRetryLoop]
  | succ fuel ih =>
    intro i
    by_cases hr : registryReady (api.retryGet i) = true
    · constructor
      · intro _
        exact ⟨0, Nat.succ_pos fuel, by simpa using hr⟩
      · intro _
        simp [registryRetryLoop, hr]
    · rw [show registryRetryLoop api i (fuel + 1) =
          registryRetryLoop api (i + 1) fuel by simp [registryRetryLoop, hr]]
      rw [ih (i + 1)]
      constructor
      · rintro ⟨j, hj, hready⟩
        exact ⟨j + 1, by omega, by simpa [Nat.add_assoc, Nat.add_comm 1 j] using hready⟩
      · rintro ⟨j, hj, hready⟩
        cases j with
        | zero => exact absurd (by simpa using hready) hr
        | succ j =>
          exact ⟨j, by omega, by simpa [Nat.add_assoc, Nat.add_comm 1 j] using hready⟩

/-- Claim C3: `createRegistry` calls `Registry.Create` exactly when the
existence check fails with a response carrying status 404; any other
failing existence check is fatal (`failed to check registry`) without
attempting creation; and once a registry value exists (from the get or
from creation, with a non-empty name) the function re-queries the
registry at most `maxRetries = 3` times, returning `nil` as soon as a
probe is ready and the distinct `ErrRegistryNotReady` if none is. -/
theorem createRegistry_spec (api : RegistryApi) :
    ((createRegistry api).2 = true ↔ api.get0 = .err (some 404)) ∧
    (∀ s, api.get0 = .err s → s ≠ some 404 →
      createRegistry api = (.error .checkFailed, false)) ∧
    (∀ reg : Registry,
      (api.get0 = .ok (some reg) ∨
       (api.get0 = .err (some 404) ∧ api.create = .ok (some reg))) →
      reg.name ≠ "" →
      ((∀ i, i < maxRetries → registryReady (api.retryGet i) = false) →
         (createRegistry api).1 = .error .notReady) ∧
      ((∃ i, i < maxRetries ∧ registryReady (api.retryGet i) = true) →
         (createRegistry api).1 = .ok ())) := by
  refine ⟨?_, ?_, ?_⟩
  · cases hg : api.get0 with
    | ok r => simp [createRegistry, hg]
    | err s =>
      by_cases hs : s = some 404
      · subst hs
        cases hc : api.create <;> simp [createRegistry, hg, hc]
      · simp [createRegistry, hg, hs]
  · intro s hg hs
    simp [createRegistry, hg, hs]
  · intro reg hreg hname
    have hloop : (createRegistry api).1 = registryRetryLoop api 0 maxRetries := by
      rcases hreg with hg | ⟨hg, hc⟩
      · simp [createRegistry, hg, registryNameCheck, hname]
      · simp [createRegistry, hg, hc, registryNameCheck, hname]
    constructor
    · intro hnotready
      rw [hloop]
      rcases registryRetryLoop_cases api maxRetries 0 with hok | herr
      · obtain ⟨j, hj, hready⟩ := (registryRetryLoop_ok_iff api maxRetries 0).mp hok
        rw [Nat.zero_add] at hready
        rw [hnotready j hj] at hready
        exact absurd hready (by simp)
      · exact herr
    · rintro ⟨i, hi, hready⟩
      rw [hloop]
      exact (registryRetryLoop_ok_iff api maxRetries 0).mpr
        ⟨i, hi, by simpa using hready⟩

/-- Witness for `createRegistry_spec`: under `registryApi0` (404 on the
check, successful creation, never-ready probes) creation is attempted and
the result is `ErrRegistryNotReady`. -/
theorem createRegistry_spec_witness :
    (createRegistry registryApi0).2 = true ∧
    (createRegistry registryApi0).1 = .error .notReady :=
  ⟨((createRegistry_spec registryApi0).1).mpr rfl,
   ((createRegistry_spec registryApi0).2.2 ⟨"n8n"⟩
      (Or.inr ⟨rfl, rfl⟩) (by decide)).1 (fun i _ => rfl)⟩

/-- Claim C5: once the pre-publish steps of `buildAndPushImage` succeed
(registry ensured, non-empty credentials, registry info with a name),
the step publishes the `latest` reference first and the version-derived
reference second, succeeds exactly when both publishes succeed, and in
particular reports `failed to publish versioned image` when the second
publish fails after the first succeeded. -/
theorem buildAndPushImage_spec (c : Config) (api : BuildApi)
    (reg : Registry) (json : String)
    (h1 : api.ensureRegistry = .ok ())
    (h2 : api.dockerCredentials = .ok json)
    (h3 : json ≠ "")
    (h4 : api.registryInfo = .ok (some reg))
    (h5 : reg.name ≠ "") :
    (((buildAndPushImage c api).1 = .ok ()) ↔
      (api.publishOk (latestRef c reg.name) = true ∧
       api.publishOk (versionedRef c reg.name) = true)) ∧
    (api.publishOk (latestRef c reg.name) = false →
      buildAndPushImage c api = (.error .publishLatest,
        [latestRef c reg.name])) ∧
    (api.publishOk (latestRef c reg.name) = true →
     api.publishOk (versionedRef c reg.name) = false →
      buildAndPushImage c api = (.error .publishVersioned,
        [latestRef c reg.name, versionedRef c reg.name])) ∧
    (api.publishOk (latestRef c reg.name) = true →
     api.publishOk (versionedRef c reg.name) = true →
      buildAndPushImage c api = (.ok (),
        [latestRef c reg.name, versionedRef c reg.name])) := by
  cases hl : api.publishOk (latestRef c reg.name) <;>
    cases hv : api.publishOk (versionedRef c reg.name) <;>
      simp [buildAndPushImage, h1, h2, h3, h4, h5, hl, hv]

/-- Witness for `buildAndPushImage_spec`: under `buildApi0` only the
`latest` reference publishes, so the step fails with
`.publishVersioned` after attempting both references in order. -/
theorem buildAndPushImage_spec_witness :
    buildAndPushImage sampleConfig buildApi0 =
      (.error .publishVersioned,
       [latestRef sampleConfig "n8n", versionedRef sampleConfig "n8n"]) :=
  (buildAndPushImage_spec sampleConfig buildApi0 ⟨"n8n"⟩ "dockerconfigjson"
      rfl rfl (by decide) rfl (by decide)).2.2.1 (by decide) (by decide)

/-- Claim C10: when `N8N_VERSION` is unset, `loadConfig` defaults the
application version to `latest`, and then the version-derived reference
computed by `buildAndPushImage` is byte-identical to the `latest`
reference, so both publishes target the same tag. -/
theorem versionDefault_collapses_tags (env : Env) (c : Config)
    (hv : env "N8N_VERSION" = "")
    (hc : loadConfig env = .ok c) :
    c.n8nVersion = "latest" ∧
    ∀ registryName, versionedRef c registryName = latestRef c registryName := by
  have hver : c.n8nVersion = "latest" := by
    simp [loadConfig, requireEnv] at hc
    split_ifs at hc
    all_goals simp_all [requireEnvOrDefault, hv]
    rw [← hc]
  refine ⟨hver, fun registryName => ?_⟩
  rw [versionedRef, latestRef, hver, String.append_assoc]
  exact congrArg (baseRef c registryName ++ ·) rfl

/-- Witness for `versionDefault_collapses_tags` at `envVersionUnset`:
the loaded version is `latest` and both image references coincide. -/
theorem versionDefault_collapses_tags_witness :
    configVersionUnset.n8nVersion = "latest" ∧
    versionedRef configVersionUnset "n8n" = latestRef configVersionUnset "n8n" := by
  have h := versionDefault_collapses_tags envVersionUnset configVersionUnset
    (by decide) (by decide)
  exact ⟨h.1, h.2 "n8n"⟩

/-- Claim C7, counterexample: with every variable unset, both
`DIGITALOCEAN_ACCESS_TOKEN` and `N8N_DOMAIN` are missing, yet the fatal
error produced by `loadConfig` names only the first of them — the
message does not even mention `N8N_DOMAIN` — so the error does not
enumerate every missing required variable. -/
theorem loadConfig_first_missing_cex :
    loadConfig (fun _ => "") =
      .error "Environment variable DIGITALOCEAN_ACCESS_TOKEN is required" ∧
    (fun _ : String => "") "N8N_DOMAIN" = "" ∧
    ¬ ("N8N_DOMAIN".data <:+:
        "Environment variable DIGITALOCEAN_ACCESS_TOKEN is required".data) := by
  refine ⟨by decide, rfl, by decide⟩

/-- Claim C7 (amended): when one or more required configuration
variables are missing, `loadConfig` fails before any cloud API call is
issued, and the fatal error names the first missing required variable in
the fixed evaluation order (token, SSH key fingerprint, domain,
encryption key) — not all of them. -/
theorem loadConfig_fails_on_first_missing (env : Env) (k : String)
    (h : requiredEnvVars.find? (fun key => env key == "") = some k) :
    loadConfig env = .error ("Environment variable " ++ k ++ " is required") ∧
    mainTrace env =
      [.configPanic ("Environment variable " ++ k ++ " is required")] ∧
    ∀ op, MainEvent.cloudCall op ∉ mainTrace env := by
  by_cases h1 : env "DIGITALOCEAN_ACCESS_TOKEN" = ""
  · have hk : k = "DIGITALOCEAN_ACCESS_TOKEN" := by
      simp [requiredEnvVars, h1] at h
      exact h.symm
    subst hk
    have hload : loadConfig env =
        .error ("Environment variable DIGITALOCEAN_ACCESS_TOKEN" ++ " is required") := by
      simp [loadConfig, requireEnv, h1]
    exact ⟨by simpa using hload, by simp [mainTrace, hload],
           by simp [mainTrace, hload]⟩
  · by_cases h2 : env "DO_SSH_KEY_FINGERPRINT" = ""
    · have hk : k = "DO_SSH_KEY_FINGERPRINT" := by
        simp [requiredEnvVars, h1, h2] at h
        exact h.symm
      subst hk
      have hload : loadConfig env =
          .error ("Environment variable DO_SSH_KEY_FINGERPRINT" ++ " is required") := by
        simp [loadConfig, requireEnv, h1, h2]
      exact ⟨by simpa using hload, by simp [mainTrace, hload],
             by simp [mainTrace, hload]⟩
    · by_cases h3 : env "N8N_DOMAIN" = ""
      · have hk : k = "N8N_DOMAIN" := by
          simp [requiredEnvVars, h1, h2, h3] at h
          exact h.symm
        subst hk
        have hload : loadConfig env =
            .error ("Environment variable N8N_DOMAIN" ++ " is required") := by
          simp [loadConfig, requireEnv, h1, h2, h3]
        exact ⟨by simpa using hload, by simp [mainTrace, hload],
               by simp [mainTrace, hload]⟩
      · by_cases h4 : env "N8N_ENCRYPTION_KEY" = ""
        · have hk : k = "N8N_ENCRYPTION_KEY" := by
            simp [requiredEnvVars, h1, h2, h3, h4] at h
            exact h.symm
          subst hk
          have hload : loadConfig env =
              .error ("Environment variable N8N_ENCRYPTION_KEY" ++ " is required") := by
            simp [loadConfig, requireEnv, h1, h2, h3, h4]
          exact ⟨by simpa using hload, by simp [mainTrace, hload],
                 by simp [mainTrace, hload]⟩
        · simp [requiredEnvVars, h1, h2, h3, h4] at h

/-- Witness for `loadConfig_fails_on_first_missing` at the all-empty
environment: the run aborts with the token message and the main trace
contains no cloud call. -/
theorem loadConfig_fails_on_first_missing_witness :
    loadConfig (fun _ => "") =
      .error ("Environment variable " ++ "DIGITALOCEAN_ACCESS_TOKEN" ++
        " is required") ∧
    MainEvent.cloudCall "Keys.List" ∉ mainTrace (fun _ => "") := by
  have h := loadConfig_fails_on_first_missing (fun _ => "")
    "DIGITALOCEAN_ACCESS_TOKEN" (by decide)
  exact ⟨h.1, h.2.2 "Keys.List"⟩

/-- Claim C4, counterexample: `generateDeploymentScript` is not a
function of the `Config` alone. `generateEnvFile` reads the
`N8N_EMAIL_MODE` process environment variable, so two runs with the
identical `sampleConfig` but different environments render different
scripts. -/
theorem generateDeploymentScript_env_cex :
    generateDeploymentScript sampleConfig (fun _ => "") ≠
      generateDeploymentScript sampleConfig
        (fun k => if k = "N8N_EMAIL_MODE" then "smtp" else "") := by
  intro h
  have hl := congrArg String.length h
  simp only [generateDeploymentScript, generateEnvFile] at hl
  norm_num at hl
  exact absurd hl (by decide)

/-- Claim C4 (amended): `generateDeploymentScript` is a deterministic
pure function of the `DeploymentConfig` and the single environment
variable `N8N_EMAIL_MODE` read by `generateEnvFile`: any two process
environments agreeing on that variable yield byte-identical rendered
output for the same config, and the generator performs no other I/O. -/
theorem generateDeploymentScript_env_independent (c : Config)
    (env1 env2 : Env)
    (h : env1 "N8N_EMAIL_MODE" = env2 "N8N_EMAIL_MODE") :
    generateDeploymentScript c env1 = generateDeploymentScript c env2 := by
  simp [generateDeploymentScript, generateEnvFile, h]

/-- Witness for `generateDeploymentScript_env_independent`: two distinct
environments that agree on `N8N_EMAIL_MODE` render the same script. -/
theorem generateDeploymentScript_env_independent_witness :
    generateDeploymentScript sampleConfig (fun _ => "") =
      generateDeploymentScript sampleConfig
        (fun k => if k = "SLACK_WEBHOOK_URL" then "hook" else "") :=
  generateDeploymentScript_env_independent sampleConfig _ _ (by decide)

end N8nCI
